import Mathlib

/-!
Shallow embedding of the poc-scrollbar container logic
(src/src/scrollcontainer.js, src/unnamed/part_000, src/unnamed/part_001)
and proofs about the spec claims.

JavaScript numbers are modelled as `Int` (the scroll logic only adds,
subtracts and compares); a distinguished `jnan` value models `NaN`.
Numeric coercion of strings is modelled by a decimal-integer parse
(non-numeric strings coerce to `NaN`, matching JS for the values used
here).
The `ScrollView` collaborator is external to the repository; its calls are
recorded in a trace.
-/

namespace PocScrollbarSpec

/-- JavaScript primitive values that can flow through the scroll API. -/
inductive JSVal where
  | jnum (n : Int)
  | jnan
  | jstr (s : String)
  | jundef
deriving DecidableEq, Repr

/-- One decimal digit of a numeric string. -/
def charDigit (c : Char) : Option Nat :=
  if 48 ≤ c.toNat ∧ c.toNat ≤ 57 then some (c.toNat - 48) else none

/-- Accumulate decimal digits; any non-digit makes the string `NaN`. -/
def digitsToNatAux : List Char → Nat → Option Nat
  | [], acc => some acc
  | c :: rest, acc =>
    match charDigit c with
    | some d => digitsToNatAux rest (acc * 10 + d)
    | none => none

/-- A non-empty all-digit character list as a natural number. -/
def digitsToNat : List Char → Option Nat
  | [] => none
  | cs => digitsToNatAux cs 0

/-- JS ToNumber on a string, restricted to optionally signed decimal
integer strings (the empty string is 0); anything else is `NaN`. -/
def jsStrToNumber (s : String) : Option Int :=
  match s.data with
  | [] => some 0
  | '-' :: rest => (digitsToNat rest).map (fun n => -(n : Int))
  | cs => (digitsToNat cs).map (fun n => (n : Int))

/-- JS ToNumber restricted to the modelled values; `none` means `NaN`. -/
def jsToNumber : JSVal → Option Int
  | .jnum n => some n
  | .jnan => none
  | .jstr s => jsStrToNumber s
  | .jundef => none

/-- JS `typeof x === 'number'` (`NaN` is a number). -/
def jsTypeofNumber : JSVal → Bool
  | .jnum _ => true
  | .jnan => true
  | _ => false

/-- JS relational `x < b` against an integer; comparisons with `NaN` are false. -/
def jsLtInt (a : JSVal) (b : Int) : Bool :=
  match jsToNumber a with
  | some n => decide (n < b)
  | none => false

/-- JS relational `x > b` against an integer; comparisons with `NaN` are false. -/
def jsGtInt (a : JSVal) (b : Int) : Bool :=
  match jsToNumber a with
  | some n => decide (b < n)
  | none => false

/-- JS strict inequality `x !== y`; note `NaN !== NaN` is true. -/
def jsStrictNe : JSVal → JSVal → Bool
  | .jnum a, .jnum b => decide (a ≠ b)
  | .jstr a, .jstr b => decide (a ≠ b)
  | .jundef, .jundef => false
  | _, _ => true

/-- JS `x + d` for an integer `d` (string operands concatenate). -/
def jsAddInt (a : JSVal) (d : Int) : JSVal :=
  match a with
  | .jnum n => .jnum (n + d)
  | .jnan => .jnan
  | .jstr s => .jstr (s ++ toString d)
  | .jundef => .jnan

/-- A call made on the (external) `ScrollView` collaborator. -/
inductive ViewCall where
  | scrollTopUpdated (v : JSVal)
  | scrollLeftUpdated (v : JSVal)
  | parentUpdated
  | viewDestroyed
deriving DecidableEq, Repr

/-- A DOM element in the `parentElement` chain; only "is it `document.body`"
matters to the code. -/
inductive Elem where
  | body
  | other (id : Nat)
deriving DecidableEq, Repr

/-- The observable state of the container element together with the
instance fields `_scrollTop` / `_scrollLeft` and the trace of
`ScrollView` calls. -/
structure ContState where
  containerScrollTop : JSVal
  containerScrollLeft : JSVal
  scrollHeight : Int
  clientHeight : Int
  scrollWidth : Int
  clientWidth : Int
  ancestors : List Elem
  styleOverflow : String
  stylePosition : String
  computedPosition : String
  stScrollTop : JSVal
  stScrollLeft : JSVal
  trace : List ViewCall
deriving DecidableEq, Repr

/-- The options object, restricted to the flags the container logic reads
(JS truthiness modelled as `Bool`). -/
structure Options where
  disableYScrolling : Bool
  disableXScrolling : Bool
  disableTouchScrollingOnContainer : Bool
  useMutationObserver : Bool
deriving DecidableEq, Repr

/-- A `wheel` DOM event, restricted to the fields the handler reads. -/
structure WheelEvent where
  deltaY : Int
  deltaX : Int
  defaultPrevented : Bool
deriving DecidableEq, Repr

/-- The four dimension values cached in the interval-handler closure. -/
structure IntervalCache where
  containerHeight : Int
  containerWidth : Int
  scrollHeight : Int
  scrollWidth : Int
deriving DecidableEq, Repr

/-- A whole scrollbar instance: container state, the interval-handler cache,
the listeners this instance registered on the container, and the
timer/observer/view lifecycle flags. `useMutationObserver` is the value of
`this._options.useMutationObserver` after constructor validation. -/
structure Inst where
  cont : ContState
  cache : IntervalCache
  listeners : List String
  timerActive : Bool
  observerActive : Bool
  viewAlive : Bool
  useMutationObserver : Bool
deriving DecidableEq, Repr

/-- The keys of the `_eventListener` object built by both constructors. -/
def eventListenerKeys : List String := ["wheel", "touchstart"]

/-- The `parentElement` walk of the interval handler: follow the ancestor
chain until `document.body` (found) or `null` (detached). -/
def findRootElement : List Elem → Option Elem
  | [] => none
  | e :: rest => if e = Elem.body then some e else findRootElement rest

namespace ScrollContainer

/-- `ScrollContainer.scrollTop` (src/src/scrollcontainer.js lines 214-240):
getter when the argument is not a number or Y scrolling is disabled;
otherwise clamp into `[0, scrollHeight - clientHeight]` and, when the value
differs from `_scrollTop`, notify the view and write the container property.
A missing argument is JS `undefined`. -/
def scrollTop (opts : Options) (s : ContState) (arg : Option JSVal) :
    ContState × JSVal :=
  let aScrollTop := arg.getD JSVal.jundef
  if !jsTypeofNumber aScrollTop || opts.disableYScrolling then
    (s, s.containerScrollTop)
  else
    let newScrollTop :=
      if jsLtInt aScrollTop 0 then JSVal.jnum 0
      else if jsGtInt aScrollTop (s.scrollHeight - s.clientHeight) then
        JSVal.jnum (s.scrollHeight - s.clientHeight)
      else aScrollTop
    if jsStrictNe s.stScrollTop newScrollTop then
      ({ s with
          trace := s.trace ++ [ViewCall.scrollTopUpdated newScrollTop],
          containerScrollTop := newScrollTop,
          stScrollTop := newScrollTop }, newScrollTop)
    else (s, newScrollTop)

/-- `ScrollContainer.scrollLeft` (src/src/scrollcontainer.js lines 248-274):
the guard tests `arguments.length === 0` (not the argument's type);
otherwise clamp into `[0, scrollWidth - clientWidth]` and, when the value
differs from `_scrollLeft`, notify the view and write the container
property. -/
def scrollLeft (opts : Options) (s : ContState) (arg : Option JSVal) :
    ContState × JSVal :=
  if arg.isNone || opts.disableXScrolling then
    (s, s.containerScrollLeft)
  else
    let aScrollLeft := arg.getD JSVal.jundef
    let newScrollLeft :=
      if jsLtInt aScrollLeft 0 then JSVal.jnum 0
      else if jsGtInt aScrollLeft (s.scrollWidth - s.clientWidth) then
        JSVal.jnum (s.scrollWidth - s.clientWidth)
      else aScrollLeft
    if jsStrictNe s.stScrollLeft newScrollLeft then
      ({ s with
          trace := s.trace ++ [ViewCall.scrollLeftUpdated newScrollLeft],
          containerScrollLeft := newScrollLeft,
          stScrollLeft := newScrollLeft }, newScrollLeft)
    else (s, newScrollLeft)

/-- The `wheel` event listener (src/src/scrollcontainer.js lines 37-59).
Returns the new state and whether `preventDefault` was called. -/
def wheel (opts : Options) (s : ContState) (aEvent : WheelEvent) :
    ContState × Bool :=
  if aEvent.defaultPrevented then (s, false)
  else
    let currentScrollTop := s.containerScrollTop
    let currentScrollLeft := s.containerScrollLeft
    let s1 := (scrollTop opts s (some (jsAddInt s.containerScrollTop aEvent.deltaY))).1
    let s2 := (scrollLeft opts s1 (some (jsAddInt s1.containerScrollLeft aEvent.deltaX))).1
    if jsStrictNe currentScrollTop s2.containerScrollTop ||
        jsStrictNe currentScrollLeft s2.containerScrollLeft then
      (s2, true)
    else (s2, false)

/-- `ScrollContainer.destroy` (src/src/scrollcontainer.js lines 280-295):
clear the interval, remove the `_eventListener` keys from the container,
destroy the scroll view. -/
def destroy (i : Inst) : Inst :=
  { i with
      timerActive := false,
      listeners := i.listeners.filter (fun k => !(eventListenerKeys.contains k)),
      viewAlive := false,
      cont := { i.cont with trace := i.cont.trace ++ [ViewCall.viewDestroyed] } }

/-- The `ScrollContainer` constructor (src/src/scrollcontainer.js lines
25-137): snapshot the dimension cache, start the interval, set the styles,
attach the listeners, zero `_scrollTop` / `_scrollLeft` and call
`parentUpdated`. The container's own scroll properties are not touched. -/
def construct (opts : Options) (aElement : ContState) : Inst :=
  let elem := { aElement with styleOverflow := "hidden" }
  let elem :=
    if elem.computedPosition ≠ "absolute" ∧ elem.computedPosition ≠ "relative" then
      { elem with stylePosition := "relative" }
    else elem
  let elem :=
    { elem with
        stScrollTop := JSVal.jnum 0,
        stScrollLeft := JSVal.jnum 0,
        trace := elem.trace ++ [ViewCall.parentUpdated] }
  { cont := elem,
    cache :=
      { containerHeight := aElement.clientHeight,
        containerWidth := aElement.clientWidth,
        scrollHeight := aElement.scrollHeight,
        scrollWidth := aElement.scrollWidth },
    listeners := eventListenerKeys,
    timerActive := true,
    observerActive := false,
    viewAlive := true,
    useMutationObserver := opts.useMutationObserver }

/-- The closure returned by `_createIntervalHandler`
(src/src/scrollcontainer.js lines 145-206), executed for one tick. -/
def intervalHandler (opts : Options) (i : Inst) : Inst :=
  let potentialRootElement := findRootElement i.cont.ancestors
  let oldScrollTop := i.cont.stScrollTop
  let oldScrollLeft := i.cont.stScrollLeft
  let i1 := { i with cont := { i.cont with trace := i.cont.trace ++
      [ViewCall.scrollTopUpdated (JSVal.jnum 0),
       ViewCall.scrollLeftUpdated (JSVal.jnum 0)] } }
  if potentialRootElement = none then
    destroy i1
  else
    let i2 :=
      if i1.cache.containerHeight ≠ i1.cont.clientHeight ∨
          i1.cache.containerWidth ≠ i1.cont.clientWidth ∨
          i1.cache.scrollHeight ≠ i1.cont.scrollHeight ∨
          i1.cache.scrollWidth ≠ i1.cont.scrollWidth then
        { i1 with
            cache :=
              { containerHeight := i1.cont.clientHeight,
                containerWidth := i1.cont.clientWidth,
                scrollHeight := i1.cont.scrollHeight,
                scrollWidth := i1.cont.scrollWidth },
            cont := { i1.cont with trace := i1.cont.trace ++ [ViewCall.parentUpdated] } }
      else i1
    let i3 :=
      if jsStrictNe i2.cont.stScrollTop i2.cont.containerScrollTop then
        { i2 with cont := (scrollTop opts i2.cont (some i2.cont.containerScrollTop)).1 }
      else if jsLtInt oldScrollTop i2.cache.scrollHeight then
        { i2 with cont := { i2.cont with
            trace := i2.cont.trace ++ [ViewCall.scrollTopUpdated oldScrollTop] } }
      else i2
    let i4 :=
      if jsStrictNe i3.cont.stScrollLeft i3.cont.containerScrollLeft then
        { i3 with cont := (scrollLeft opts i3.cont (some i3.cont.containerScrollLeft)).1 }
      else if jsLtInt oldScrollLeft i3.cache.scrollWidth then
        { i3 with cont := { i3.cont with
            trace := i3.cont.trace ++ [ViewCall.scrollLeftUpdated oldScrollLeft] } }
      else i3
    i4

end ScrollContainer

namespace PocScrollbar

/-- `PocScrollbar.scrollTop` (src/unnamed/part_001 lines 228-254); the body
is textually identical to `ScrollContainer.scrollTop`. -/
def scrollTop (opts : Options) (s : ContState) (arg : Option JSVal) :
    ContState × JSVal :=
  let aScrollTop := arg.getD JSVal.jundef
  if !jsTypeofNumber aScrollTop || opts.disableYScrolling then
    (s, s.containerScrollTop)
  else
    let newScrollTop :=
      if jsLtInt aScrollTop 0 then JSVal.jnum 0
      else if jsGtInt aScrollTop (s.scrollHeight - s.clientHeight) then
        JSVal.jnum (s.scrollHeight - s.clientHeight)
      else aScrollTop
    if jsStrictNe s.stScrollTop newScrollTop then
      ({ s with
          trace := s.trace ++ [ViewCall.scrollTopUpdated newScrollTop],
          containerScrollTop := newScrollTop,
          stScrollTop := newScrollTop }, newScrollTop)
    else (s, newScrollTop)

/-- `PocScrollbar.scrollLeft` (src/unnamed/part_001 lines 262-288); the body
is textually identical to `ScrollContainer.scrollLeft`, including the
`arguments.length === 0` guard. -/
def scrollLeft (opts : Options) (s : ContState) (arg : Option JSVal) :
    ContState × JSVal :=
  if arg.isNone || opts.disableXScrolling then
    (s, s.containerScrollLeft)
  else
    let aScrollLeft := arg.getD JSVal.jundef
    let newScrollLeft :=
      if jsLtInt aScrollLeft 0 then JSVal.jnum 0
      else if jsGtInt aScrollLeft (s.scrollWidth - s.clientWidth) then
        JSVal.jnum (s.scrollWidth - s.clientWidth)
      else aScrollLeft
    if jsStrictNe s.stScrollLeft newScrollLeft then
      ({ s with
          trace := s.trace ++ [ViewCall.scrollLeftUpdated newScrollLeft],
          containerScrollLeft := newScrollLeft,
          stScrollLeft := newScrollLeft }, newScrollLeft)
    else (s, newScrollLeft)

/-- `PocScrollbar.destroy` (src/unnamed/part_001 lines 294-316): disconnect
the observer in MutationObserver mode, otherwise clear the interval; then
remove the `_eventListener` keys and destroy the scroll view. -/
def destroy (i : Inst) : Inst :=
  let i1 :=
    if i.useMutationObserver then { i with observerActive := false }
    else { i with timerActive := false }
  { i1 with
      listeners := i1.listeners.filter (fun k => !(eventListenerKeys.contains k)),
      viewAlive := false,
      cont := { i1.cont with trace := i1.cont.trace ++ [ViewCall.viewDestroyed] } }

/-- The `PocScrollbar` constructor (src/unnamed/part_001 lines 26-149).
`mutationObserverAvailable` models the truthiness of the global
`MutationObserver`; the constructor overwrites
`this._options.useMutationObserver` with `false` when it is unavailable and
then starts either the observer or the interval. -/
def construct (opts : Options) (mutationObserverAvailable : Bool)
    (aElement : ContState) : Inst :=
  let useMO := if mutationObserverAvailable then opts.useMutationObserver else false
  let elem := { aElement with styleOverflow := "hidden" }
  let elem :=
    if elem.computedPosition ≠ "absolute" ∧ elem.computedPosition ≠ "relative" then
      { elem with stylePosition := "relative" }
    else elem
  let elem :=
    { elem with
        stScrollTop := JSVal.jnum 0,
        stScrollLeft := JSVal.jnum 0,
        trace := elem.trace ++ [ViewCall.parentUpdated] }
  { cont := elem,
    cache :=
      { containerHeight := aElement.clientHeight,
        containerWidth := aElement.clientWidth,
        scrollHeight := aElement.scrollHeight,
        scrollWidth := aElement.scrollWidth },
    listeners := eventListenerKeys,
    timerActive := !useMO,
    observerActive := useMO,
    viewAlive := true,
    useMutationObserver := useMO }

end PocScrollbar

/-- `debounce` (src/unnamed/part_000 lines 41-48) as a timeline function:
given the ordered times at which the returned wrapper is invoked, the times
at which `aCallback` actually runs. Each wrapper call clears the pending
timeout and schedules the callback `aWaitTime` later; a pending timeout
fires unless another wrapper call occurs strictly before its deadline. -/
def debounceFires (aWaitTime : Nat) : List Nat → List Nat
  | [] => []
  | [t] => [t + aWaitTime]
  | t1 :: t2 :: rest =>
    if t2 < t1 + aWaitTime then debounceFires aWaitTime (t2 :: rest)
    else (t1 + aWaitTime) :: debounceFires aWaitTime (t2 :: rest)

/-- A JS option value as read from the options object by the helper
(src/unnamed/part_000). -/
inductive OptVal where
  | oStr (s : String)
  | oNum (n : Int)
  | oBool (b : Bool)
  | oArr (xs : List String)
  | oObj (kvs : List (String × String))
  | oNull
  | oUndef
deriving DecidableEq, Repr

/-- JS truthiness of an option value. -/
def truthy : OptVal → Bool
  | .oStr s => s != ""
  | .oNum n => n != 0
  | .oBool b => b
  | .oArr _ => true
  | .oObj _ => true
  | .oNull => false
  | .oUndef => false

/-- JS `typeof x === 'object'` (arrays and `null` included). -/
def typeofIsObject : OptVal → Bool
  | .oArr _ => true
  | .oObj _ => true
  | .oNull => true
  | _ => false

/-- JS `typeof x === 'string'`. -/
def typeofIsString : OptVal → Bool
  | .oStr _ => true
  | _ => false

/-- JS `Array.isArray`. -/
def isArray : OptVal → Bool
  | .oArr _ => true
  | _ => false

/-- `Object.keys` iteration of a style object (empty for non-objects). -/
def objEntries : OptVal → List (String × String)
  | .oObj kvs => kvs
  | _ => []

/-- The entries of an array option (empty for non-arrays). -/
def arrEntries : OptVal → List String
  | .oArr xs => xs
  | _ => []

/-- The string payload of a string option. -/
def strVal : OptVal → String
  | .oStr s => s
  | _ => ""

/-- A scrollbar element as the helper sees it: its inline style map and its
class list. -/
structure BarElement where
  style : List (String × String)
  classList : List String
deriving DecidableEq, Repr

/-- `element.style[k] = v`: replace any binding of `k`. -/
def styleSet (style : List (String × String)) (k v : String) :
    List (String × String) :=
  (style.filter (fun kv => kv.1 != k)) ++ [(k, v)]

/-- Look up a style property. -/
def styleGet (style : List (String × String)) (k : String) : Option String :=
  (style.find? (fun kv => kv.1 == k)).map Prod.snd

/-- `element.classList.add c`: ignored when already present. -/
def classListAdd (classList : List String) (c : String) : List String :=
  if c ∈ classList then classList else classList ++ [c]

/-- `applyOptionsToScollBarElement` (src/unnamed/part_000 lines 8-32):
copy the `<name>Styles` option onto the style when it is a truthy non-array
object, then add the `<name>Class` option to the class list when it is a
truthy string, or each of its entries when it is an array. -/
def applyOptionsToScollBarElement (aElement : BarElement) (aElementName : String)
    (aOptions : Option (String → OptVal)) : BarElement :=
  let stylesKey := aElementName ++ "Styles"
  let classKey := aElementName ++ "Class"
  let stylesVal := match aOptions with | some o => o stylesKey | none => OptVal.oUndef
  let classVal := match aOptions with | some o => o classKey | none => OptVal.oUndef
  let e1 :=
    if aOptions.isSome && truthy stylesVal && typeofIsObject stylesVal &&
        !(isArray stylesVal) then
      { aElement with
          style := (objEntries stylesVal).foldl
            (fun st kv => styleSet st kv.1 kv.2) aElement.style }
    else aElement
  if aOptions.isSome && truthy classVal && typeofIsString classVal then
    { e1 with classList := classListAdd e1.classList (strVal classVal) }
  else if aOptions.isSome && isArray classVal then
    { e1 with classList := (arrEntries classVal).foldl classListAdd e1.classList }
  else e1

/-- The contract claimed for a numeric `scrollTop` call: the returned value
is clamped into `[0, scrollHeight - clientHeight]` and, when it differs
from the stored `_scrollTop`, it is written to the container property and
the view is notified with exactly that value. -/
def scrollTopContract (opts : Options) (s : ContState) (v : Int) : Prop :=
  ∃ r : Int, (ScrollContainer.scrollTop opts s (some (JSVal.jnum v))).2 = JSVal.jnum r ∧
    0 ≤ r ∧ r ≤ s.scrollHeight - s.clientHeight ∧
    (jsStrictNe s.stScrollTop (JSVal.jnum r) = true →
      (ScrollContainer.scrollTop opts s (some (JSVal.jnum v))).1.containerScrollTop = JSVal.jnum r ∧
      (ScrollContainer.scrollTop opts s (some (JSVal.jnum v))).1.stScrollTop = JSVal.jnum r ∧
      (ScrollContainer.scrollTop opts s (some (JSVal.jnum v))).1.trace =
        s.trace ++ [ViewCall.scrollTopUpdated (JSVal.jnum r)])

/-- The contract claimed for a numeric `scrollLeft` call, analogous to
`scrollTopContract`. -/
def scrollLeftContract (opts : Options) (s : ContState) (w : Int) : Prop :=
  ∃ r : Int, (ScrollContainer.scrollLeft opts s (some (JSVal.jnum w))).2 = JSVal.jnum r ∧
    0 ≤ r ∧ r ≤ s.scrollWidth - s.clientWidth ∧
    (jsStrictNe s.stScrollLeft (JSVal.jnum r) = true →
      (ScrollContainer.scrollLeft opts s (some (JSVal.jnum w))).1.containerScrollLeft = JSVal.jnum r ∧
      (ScrollContainer.scrollLeft opts s (some (JSVal.jnum w))).1.stScrollLeft = JSVal.jnum r ∧
      (ScrollContainer.scrollLeft opts s (some (JSVal.jnum w))).1.trace =
        s.trace ++ [ViewCall.scrollLeftUpdated (JSVal.jnum r)])

/-- The synchronization invariant of claim C3: the stored offsets equal the
container's native scroll properties. -/
def scrollSync (s : ContState) : Prop :=
  s.stScrollTop = s.containerScrollTop ∧ s.stScrollLeft = s.containerScrollLeft

/-- The dimension-change test of the interval handler closure, as a
predicate on an instance. -/
def dimsChanged (i : Inst) : Prop :=
  i.cache.containerHeight ≠ i.cont.clientHeight ∨
  i.cache.containerWidth ≠ i.cont.clientWidth ∨
  i.cache.scrollHeight ≠ i.cont.scrollHeight ∨
  i.cache.scrollWidth ≠ i.cont.scrollWidth

/-- All scrolling options enabled (every flag falsy), the default setup. -/
def opts0 : Options := ⟨false, false, false, false⟩

/-- A small attached container: 100×80 content in a 40×30 box, unscrolled. -/
def elem0 : ContState :=
  { containerScrollTop := .jnum 0, containerScrollLeft := .jnum 0,
    scrollHeight := 100, clientHeight := 40, scrollWidth := 80, clientWidth := 30,
    ancestors := [.other 1, .body], styleOverflow := "", stylePosition := "static",
    computedPosition := "static", stScrollTop := .jnum 0, stScrollLeft := .jnum 0,
    trace := [] }

/-- The same container but already scrolled down to 5 before the scrollbar
is constructed. -/
def elemScrolled5 : ContState :=
  { elem0 with containerScrollTop := .jnum 5 }

instance (i : Inst) : Decidable (dimsChanged i) :=
  inferInstanceAs (Decidable (i.cache.containerHeight ≠ i.cont.clientHeight ∨
    i.cache.containerWidth ≠ i.cont.clientWidth ∨
    i.cache.scrollHeight ≠ i.cont.scrollHeight ∨
    i.cache.scrollWidth ≠ i.cont.scrollWidth))

/-- A detached instance (no ancestor is `document.body`) whose cached
container height is stale. -/
def iDetached : Inst :=
  { cont := { elem0 with ancestors := [.other 2] },
    cache := { containerHeight := 41, containerWidth := 30,
               scrollHeight := 100, scrollWidth := 80 },
    listeners := eventListenerKeys, timerActive := true, observerActive := false,
    viewAlive := true, useMutationObserver := false }

/-- An attached instance whose cached container height is stale. -/
def iAttached : Inst :=
  { cont := elem0,
    cache := { containerHeight := 41, containerWidth := 30,
               scrollHeight := 100, scrollWidth := 80 },
    listeners := eventListenerKeys, timerActive := true, observerActive := false,
    viewAlive := true, useMutationObserver := false }

/-- A bare scrollbar element with no inline styles and no classes. -/
def barElem0 : BarElement := { style := [], classList := [] }

/-- An options object whose `xElementClass` is the empty string. -/
def emptyClassOpts : String → OptVal :=
  fun k => if k = "xElementClass" then OptVal.oStr "" else OptVal.oUndef

/-- An options object with a style object and a class array for `xElement`. -/
def styleClassOpts : String → OptVal :=
  fun k =>
    if k = "xElementStyles" then OptVal.oObj [("color", "red"), ("top", "1px")]
    else if k = "xElementClass" then OptVal.oArr ["a", "b"]
    else OptVal.oUndef

lemma scrollTop_num_run (opts : Options) (s : ContState) (v : Int)
    (hY : opts.disableYScrolling = false) (r : Int)
    (hr : r = if v < 0 then 0
          else if s.scrollHeight - s.clientHeight < v then s.scrollHeight - s.clientHeight
          else v) :
    ScrollContainer.scrollTop opts s (some (JSVal.jnum v)) =
      (if jsStrictNe s.stScrollTop (JSVal.jnum r) then
        { s with trace := s.trace ++ [ViewCall.scrollTopUpdated (JSVal.jnum r)],
                 containerScrollTop := JSVal.jnum r, stScrollTop := JSVal.jnum r }
       else s, JSVal.jnum r) := by
  subst hr
  by_cases hv : v < 0
  · simp [ScrollContainer.scrollTop, jsTypeofNumber, jsLtInt, jsGtInt, jsToNumber, hY, hv]
    split <;> rfl
  · by_cases hv2 : s.scrollHeight - s.clientHeight < v
    · simp [ScrollContainer.scrollTop, jsTypeofNumber, jsLtInt, jsGtInt, jsToNumber, hY,
        hv, hv2]
      split <;> rfl
    · simp [ScrollContainer.scrollTop, jsTypeofNumber, jsLtInt, jsGtInt, jsToNumber, hY,
        hv, hv2]
      split <;> rfl

lemma scrollLeft_num_run (opts : Options) (s : ContState) (w : Int)
    (hX : opts.disableXScrolling = false) (r : Int)
    (hr : r = if w < 0 then 0
          else if s.scrollWidth - s.clientWidth < w then s.scrollWidth - s.clientWidth
          else w) :
    ScrollContainer.scrollLeft opts s (some (JSVal.jnum w)) =
      (if jsStrictNe s.stScrollLeft (JSVal.jnum r) then
        { s with trace := s.trace ++ [ViewCall.scrollLeftUpdated (JSVal.jnum r)],
                 containerScrollLeft := JSVal.jnum r, stScrollLeft := JSVal.jnum r }
       else s, JSVal.jnum r) := by
  subst hr
  by_cases hw : w < 0
  · simp [ScrollContainer.scrollLeft, jsLtInt, jsGtInt, jsToNumber, hX, hw]
    split <;> rfl
  · by_cases hw2 : s.scrollWidth - s.clientWidth < w
    · simp [ScrollContainer.scrollLeft, jsLtInt, jsGtInt, jsToNumber, hX, hw, hw2]
      split <;> rfl
    · simp [ScrollContainer.scrollLeft, jsLtInt, jsGtInt, jsToNumber, hX, hw, hw2]
      split <;> rfl

/-- Claim C1: a numeric `scrollTop(v)` (Y scrolling enabled) returns a value
in `[0, scrollHeight - clientHeight]`, a numeric `scrollLeft(v)` (X
scrolling enabled) returns a value in `[0, scrollWidth - clientWidth]`, and
whenever the clamped value differs from the stored offset it is written to
the container property and the view is notified with exactly that value. -/
theorem claim1_scroll_clamped_and_notified (opts : Options) (s : ContState) (v w : Int)
    (hY : opts.disableYScrolling = false) (hX : opts.disableXScrolling = false)
    (hH : s.clientHeight ≤ s.scrollHeight) (hW : s.clientWidth ≤ s.scrollWidth) :
    scrollTopContract opts s v ∧ scrollLeftContract opts s w := by
  constructor
  · refine ⟨if v < 0 then 0
      else if s.scrollHeight - s.clientHeight < v then s.scrollHeight - s.clientHeight
      else v, ?_, ?_, ?_, ?_⟩
    · rw [scrollTop_num_run opts s v hY _ rfl]
    · split <;> try split
      all_goals omega
    · split <;> try split
      all_goals omega
    · intro hne
      rw [scrollTop_num_run opts s v hY _ rfl]
      simp [hne]
  · refine ⟨if w < 0 then 0
      else if s.scrollWidth - s.clientWidth < w then s.scrollWidth - s.clientWidth
      else w, ?_, ?_, ?_, ?_⟩
    · rw [scrollLeft_num_run opts s w hX _ rfl]
    · split <;> try split
      all_goals omega
    · split <;> try split
      all_goals omega
    · intro hne
      rw [scrollLeft_num_run opts s w hX _ rfl]
      simp [hne]

/-- Witness for claim C1 at a concrete overshooting input. -/
theorem claim1_witness :
    (opts0.disableYScrolling = false ∧ opts0.disableXScrolling = false ∧
     elem0.clientHeight ≤ elem0.scrollHeight ∧ elem0.clientWidth ≤ elem0.scrollWidth) ∧
    (scrollTopContract opts0 elem0 200 ∧ scrollLeftContract opts0 elem0 (-7)) :=
  ⟨⟨rfl, rfl, by decide, by decide⟩,
   claim1_scroll_clamped_and_notified opts0 elem0 200 (-7) rfl rfl (by decide) (by decide)⟩

/-- Claim C2 (code bug): `scrollTop` rejects a non-number argument and acts
as a pure getter, but `scrollLeft` guards only on `arguments.length === 0`,
so a string argument flows through the clamp, is stored in `_scrollLeft`,
written to the container property and reported to the view. -/
theorem claim2_scrollLeft_guard_bug :
    jsTypeofNumber (JSVal.jstr "abc") = false ∧
    ScrollContainer.scrollTop opts0 elem0 (some (JSVal.jstr "abc")) =
      (elem0, elem0.containerScrollTop) ∧
    (ScrollContainer.scrollLeft opts0 elem0 (some (JSVal.jstr "abc"))).2 =
      JSVal.jstr "abc" ∧
    (ScrollContainer.scrollLeft opts0 elem0 (some (JSVal.jstr "abc"))).1.containerScrollLeft =
      JSVal.jstr "abc" ∧
    (ScrollContainer.scrollLeft opts0 elem0 (some (JSVal.jstr "abc"))).1.stScrollLeft =
      JSVal.jstr "abc" ∧
    (ScrollContainer.scrollLeft opts0 elem0 (some (JSVal.jstr "abc"))).1.trace =
      [ViewCall.scrollLeftUpdated (JSVal.jstr "abc")] := by
  decide

lemma scrollTop_fst_cases (opts : Options) (s : ContState) (arg : Option JSVal) :
    (ScrollContainer.scrollTop opts s arg).1 = s ∨
    ∃ r, (ScrollContainer.scrollTop opts s arg).1 =
        { s with trace := s.trace ++ [ViewCall.scrollTopUpdated r],
                 containerScrollTop := r, stScrollTop := r } := by
  simp only [ScrollContainer.scrollTop]
  split
  · exact Or.inl rfl
  · repeat' split
    all_goals first | exact Or.inl rfl | exact Or.inr ⟨_, rfl⟩

lemma scrollLeft_fst_cases (opts : Options) (s : ContState) (arg : Option JSVal) :
    (ScrollContainer.scrollLeft opts s arg).1 = s ∨
    ∃ r, (ScrollContainer.scrollLeft opts s arg).1 =
        { s with trace := s.trace ++ [ViewCall.scrollLeftUpdated r],
                 containerScrollLeft := r, stScrollLeft := r } := by
  simp only [ScrollContainer.scrollLeft]
  split
  · exact Or.inl rfl
  · repeat' split
    all_goals first | exact Or.inl rfl | exact Or.inr ⟨_, rfl⟩

lemma scrollTop_sync_preserved (opts : Options) (s : ContState) (arg : Option JSVal)
    (h : scrollSync s) : scrollSync (ScrollContainer.scrollTop opts s arg).1 := by
  rcases scrollTop_fst_cases opts s arg with h1 | ⟨r, h1⟩
  · rw [h1]; exact h
  · rw [h1]; exact ⟨rfl, h.2⟩

lemma scrollLeft_sync_preserved (opts : Options) (s : ContState) (arg : Option JSVal)
    (h : scrollSync s) : scrollSync (ScrollContainer.scrollLeft opts s arg).1 := by
  rcases scrollLeft_fst_cases opts s arg with h1 | ⟨r, h1⟩
  · rw [h1]; exact h
  · rw [h1]; exact ⟨h.1, rfl⟩

lemma wheel_sync_preserved (opts : Options) (s : ContState) (ev : WheelEvent)
    (h : scrollSync s) : scrollSync (ScrollContainer.wheel opts s ev).1 := by
  simp only [ScrollContainer.wheel]
  split
  · exact h
  · split
    · exact scrollLeft_sync_preserved _ _ _ (scrollTop_sync_preserved _ _ _ h)
    · exact scrollLeft_sync_preserved _ _ _ (scrollTop_sync_preserved _ _ _ h)

lemma sync_step_top (opts : Options) (i : Inst) (old : JSVal)
    (h : scrollSync i.cont) :
    scrollSync ((if jsStrictNe i.cont.stScrollTop i.cont.containerScrollTop then
        { i with cont := (ScrollContainer.scrollTop opts i.cont (some i.cont.containerScrollTop)).1 }
      else if jsLtInt old i.cache.scrollHeight then
        { i with cont := { i.cont with
            trace := i.cont.trace ++ [ViewCall.scrollTopUpdated old] } }
      else i).cont) := by
  split
  · exact scrollTop_sync_preserved _ _ _ h
  · split
    · exact ⟨h.1, h.2⟩
    · exact h

lemma sync_step_left (opts : Options) (i : Inst) (old : JSVal)
    (h : scrollSync i.cont) :
    scrollSync ((if jsStrictNe i.cont.stScrollLeft i.cont.containerScrollLeft then
        { i with cont := (ScrollContainer.scrollLeft opts i.cont (some i.cont.containerScrollLeft)).1 }
      else if jsLtInt old i.cache.scrollWidth then
        { i with cont := { i.cont with
            trace := i.cont.trace ++ [ViewCall.scrollLeftUpdated old] } }
      else i).cont) := by
  split
  · exact scrollLeft_sync_preserved _ _ _ h
  · split
    · exact ⟨h.1, h.2⟩
    · exact h

lemma intervalHandler_sync_preserved (opts : Options) (i : Inst)
    (h : scrollSync i.cont) :
    scrollSync (ScrollContainer.intervalHandler opts i).cont := by
  simp only [ScrollContainer.intervalHandler]
  split
  · exact ⟨h.1, h.2⟩
  · apply sync_step_left
    apply sync_step_top
    split
    · exact ⟨h.1, h.2⟩
    · exact ⟨h.1, h.2⟩

/-- Claim C3 (amended): the synchronization `_scrollTop = container.scrollTop`
and `_scrollLeft = container.scrollLeft` holds after the constructor only
when the container was unscrolled at construction (the constructor zeroes
the stored offsets but never writes the container's scroll properties), and
is preserved by `scrollTop`, `scrollLeft`, the wheel handler and an
interval tick. -/
theorem claim3_sync_invariant_amended :
    (∀ (opts : Options) (elem : ContState),
       elem.containerScrollTop = JSVal.jnum 0 → elem.containerScrollLeft = JSVal.jnum 0 →
       scrollSync (ScrollContainer.construct opts elem).cont) ∧
    (∀ (opts : Options) (s : ContState) (arg : Option JSVal), scrollSync s →
       scrollSync (ScrollContainer.scrollTop opts s arg).1) ∧
    (∀ (opts : Options) (s : ContState) (arg : Option JSVal), scrollSync s →
       scrollSync (ScrollContainer.scrollLeft opts s arg).1) ∧
    (∀ (opts : Options) (s : ContState) (ev : WheelEvent), scrollSync s →
       scrollSync (ScrollContainer.wheel opts s ev).1) ∧
    (∀ (opts : Options) (i : Inst), scrollSync i.cont →
       scrollSync (ScrollContainer.intervalHandler opts i).cont) := by
  refine ⟨?_, scrollTop_sync_preserved, scrollLeft_sync_preserved,
    wheel_sync_preserved, intervalHandler_sync_preserved⟩
  intro opts elem h1 h2
  simp only [ScrollContainer.construct]
  split <;> simp [scrollSync, h1, h2]

/-- Counterexample to claim C3 as stated: constructing on a container whose
native `scrollTop` is already 5 leaves the stored offset at 0, out of sync
with the container. -/
theorem claim3_counterexample :
    ¬ scrollSync (ScrollContainer.construct opts0 elemScrolled5).cont := by
  unfold scrollSync
  decide

/-- Witness for claim C3 at a concrete unscrolled container. -/
theorem claim3_witness :
    (elem0.containerScrollTop = JSVal.jnum 0 ∧ elem0.containerScrollLeft = JSVal.jnum 0) ∧
    scrollSync (ScrollContainer.construct opts0 elem0).cont :=
  ⟨⟨rfl, rfl⟩, claim3_sync_invariant_amended.1 opts0 elem0 rfl rfl⟩

lemma scrollTop_containerScrollLeft (opts : Options) (s : ContState) (arg : Option JSVal) :
    (ScrollContainer.scrollTop opts s arg).1.containerScrollLeft = s.containerScrollLeft := by
  rcases scrollTop_fst_cases opts s arg with h | ⟨r, h⟩ <;> rw [h]

lemma scrollLeft_containerScrollTop (opts : Options) (s : ContState) (arg : Option JSVal) :
    (ScrollContainer.scrollLeft opts s arg).1.containerScrollTop = s.containerScrollTop := by
  rcases scrollLeft_fst_cases opts s arg with h | ⟨r, h⟩ <;> rw [h]

lemma scrollTop_container_num (opts : Options) (s : ContState) (v a : Int)
    (h : s.containerScrollTop = JSVal.jnum a) :
    ∃ c : Int,
      (ScrollContainer.scrollTop opts s (some (JSVal.jnum v))).1.containerScrollTop =
        JSVal.jnum c := by
  by_cases hY : opts.disableYScrolling = true
  · exact ⟨a, by simp [ScrollContainer.scrollTop, hY, h]⟩
  · obtain ⟨r, hr⟩ : ∃ r : Int, r = if v < 0 then 0
        else if s.scrollHeight - s.clientHeight < v then s.scrollHeight - s.clientHeight
        else v := ⟨_, rfl⟩
    rw [scrollTop_num_run opts s v (by simpa using hY) r hr]
    split
    · exact ⟨r, rfl⟩
    · exact ⟨a, h⟩

lemma scrollLeft_container_num (opts : Options) (s : ContState) (w b : Int)
    (h : s.containerScrollLeft = JSVal.jnum b) :
    ∃ d : Int,
      (ScrollContainer.scrollLeft opts s (some (JSVal.jnum w))).1.containerScrollLeft =
        JSVal.jnum d := by
  by_cases hX : opts.disableXScrolling = true
  · exact ⟨b, by simp [ScrollContainer.scrollLeft, hX, h]⟩
  · obtain ⟨r, hr⟩ : ∃ r : Int, r = if w < 0 then 0
        else if s.scrollWidth - s.clientWidth < w then s.scrollWidth - s.clientWidth
        else w := ⟨_, rfl⟩
    rw [scrollLeft_num_run opts s w (by simpa using hX) r hr]
    split
    · exact ⟨r, rfl⟩
    · exact ⟨b, h⟩

/-- Claim C4: the wheel listener ignores an event whose default is already
prevented, and calls `preventDefault` exactly when routing the deltas
through `scrollTop` / `scrollLeft` changed the container's scroll position
(top or left). -/
theorem claim4_wheel_preventDefault_iff_changed (opts : Options) (s : ContState)
    (ev : WheelEvent) (a b : Int)
    (ha : s.containerScrollTop = JSVal.jnum a)
    (hb : s.containerScrollLeft = JSVal.jnum b) :
    (ev.defaultPrevented = true → ScrollContainer.wheel opts s ev = (s, false)) ∧
    (ev.defaultPrevented = false →
      ((ScrollContainer.wheel opts s ev).2 = true ↔
        (ScrollContainer.wheel opts s ev).1.containerScrollTop ≠ s.containerScrollTop ∨
        (ScrollContainer.wheel opts s ev).1.containerScrollLeft ≠ s.containerScrollLeft)) := by
  constructor
  · intro hdp
    simp [ScrollContainer.wheel, hdp]
  · intro hdp
    simp only [ScrollContainer.wheel, hdp, Bool.false_eq_true, if_false]
    rw [ha]
    set s1 := (ScrollContainer.scrollTop opts s (some (jsAddInt (JSVal.jnum a) ev.deltaY))).1
      with hs1
    have h1T : ∃ c : Int, s1.containerScrollTop = JSVal.jnum c := by
      rw [hs1]
      simpa [jsAddInt] using scrollTop_container_num opts s (a + ev.deltaY) a ha
    have h1L : s1.containerScrollLeft = JSVal.jnum b := by
      rw [hs1, scrollTop_containerScrollLeft]
      exact hb
    rw [h1L]
    set s2 := (ScrollContainer.scrollLeft opts s1 (some (jsAddInt (JSVal.jnum b) ev.deltaX))).1
      with hs2
    obtain ⟨c, hc⟩ := h1T
    have h2T : s2.containerScrollTop = JSVal.jnum c := by
      rw [hs2, scrollLeft_containerScrollTop]
      exact hc
    have h2L : ∃ d : Int, s2.containerScrollLeft = JSVal.jnum d := by
      rw [hs2]
      simpa [jsAddInt] using scrollLeft_container_num opts s1 (b + ev.deltaX) b h1L
    obtain ⟨d, hd⟩ := h2L
    rw [hb]
    split
    next hcond =>
      rw [h2T, hd] at hcond
      simp only [jsStrictNe, Bool.or_eq_true, decide_eq_true_eq] at hcond
      simp [h2T, hd, ha, hb]
      tauto
    next hcond =>
      rw [h2T, hd] at hcond
      simp only [jsStrictNe, Bool.or_eq_true, decide_eq_true_eq] at hcond
      push_neg at hcond
      simp [h2T, hd, ha, hb, hcond.1, hcond.2]

/-- Witness for claim C4: a downward wheel tick on the fresh container. -/
theorem claim4_witness :
    (ScrollContainer.wheel opts0 elem0 ⟨10, 0, false⟩).2 = true ↔
      ((ScrollContainer.wheel opts0 elem0 ⟨10, 0, false⟩).1.containerScrollTop ≠
         elem0.containerScrollTop ∨
       (ScrollContainer.wheel opts0 elem0 ⟨10, 0, false⟩).1.containerScrollLeft ≠
         elem0.containerScrollLeft) :=
  (claim4_wheel_preventDefault_iff_changed opts0 elem0 ⟨10, 0, false⟩ 0 0 rfl rfl).2 rfl

lemma scrollTop_count_parentUpdated (opts : Options) (s : ContState) (arg : Option JSVal) :
    (ScrollContainer.scrollTop opts s arg).1.trace.count ViewCall.parentUpdated =
      s.trace.count ViewCall.parentUpdated := by
  rcases scrollTop_fst_cases opts s arg with h | ⟨r, h⟩ <;> rw [h] <;>
    simp [List.count_append, List.count_cons]

lemma scrollLeft_count_parentUpdated (opts : Options) (s : ContState) (arg : Option JSVal) :
    (ScrollContainer.scrollLeft opts s arg).1.trace.count ViewCall.parentUpdated =
      s.trace.count ViewCall.parentUpdated := by
  rcases scrollLeft_fst_cases opts s arg with h | ⟨r, h⟩ <;> rw [h] <;>
    simp [List.count_append, List.count_cons]

lemma count_step_top (opts : Options) (i : Inst) (old : JSVal) :
    ((if jsStrictNe i.cont.stScrollTop i.cont.containerScrollTop then
        { i with cont := (ScrollContainer.scrollTop opts i.cont (some i.cont.containerScrollTop)).1 }
      else if jsLtInt old i.cache.scrollHeight then
        { i with cont := { i.cont with
            trace := i.cont.trace ++ [ViewCall.scrollTopUpdated old] } }
      else i).cont.trace.count ViewCall.parentUpdated) =
      i.cont.trace.count ViewCall.parentUpdated := by
  split
  · exact scrollTop_count_parentUpdated _ _ _
  · split
    · simp [List.count_append, List.count_cons]
    · rfl

lemma count_step_left (opts : Options) (i : Inst) (old : JSVal) :
    ((if jsStrictNe i.cont.stScrollLeft i.cont.containerScrollLeft then
        { i with cont := (ScrollContainer.scrollLeft opts i.cont (some i.cont.containerScrollLeft)).1 }
      else if jsLtInt old i.cache.scrollWidth then
        { i with cont := { i.cont with
            trace := i.cont.trace ++ [ViewCall.scrollLeftUpdated old] } }
      else i).cont.trace.count ViewCall.parentUpdated) =
      i.cont.trace.count ViewCall.parentUpdated := by
  split
  · exact scrollLeft_count_parentUpdated _ _ _
  · split
    · simp [List.count_append, List.count_cons]
    · rfl

lemma cache_step_top (opts : Options) (i : Inst) (old : JSVal) :
    ((if jsStrictNe i.cont.stScrollTop i.cont.containerScrollTop then
        { i with cont := (ScrollContainer.scrollTop opts i.cont (some i.cont.containerScrollTop)).1 }
      else if jsLtInt old i.cache.scrollHeight then
        { i with cont := { i.cont with
            trace := i.cont.trace ++ [ViewCall.scrollTopUpdated old] } }
      else i).cache) = i.cache := by
  split
  · rfl
  · split <;> rfl

lemma cache_step_left (opts : Options) (i : Inst) (old : JSVal) :
    ((if jsStrictNe i.cont.stScrollLeft i.cont.containerScrollLeft then
        { i with cont := (ScrollContainer.scrollLeft opts i.cont (some i.cont.containerScrollLeft)).1 }
      else if jsLtInt old i.cache.scrollWidth then
        { i with cont := { i.cont with
            trace := i.cont.trace ++ [ViewCall.scrollLeftUpdated old] } }
      else i).cache) = i.cache := by
  split
  · rfl
  · split <;> rfl

/-- Claim C5 (amended): on a tick on which the container is still attached
to `document.body`, the handler calls `parentUpdated` exactly when one of
the four cached dimensions differs from the container's current value, and
in that case refreshes all four cached values; on a detached tick the
handler destroys the instance instead (see the counterexample). -/
theorem claim5_parentUpdated_iff_dims_changed (opts : Options) (i : Inst)
    (hroot : (findRootElement i.cont.ancestors).isSome = true) :
    ((ScrollContainer.intervalHandler opts i).cont.trace.count ViewCall.parentUpdated =
       i.cont.trace.count ViewCall.parentUpdated + (if dimsChanged i then 1 else 0)) ∧
    ((ScrollContainer.intervalHandler opts i).cache =
       (if dimsChanged i then
         { containerHeight := i.cont.clientHeight, containerWidth := i.cont.clientWidth,
           scrollHeight := i.cont.scrollHeight, scrollWidth := i.cont.scrollWidth }
        else i.cache)) := by
  have hne : ¬ (findRootElement i.cont.ancestors = none) :=
    Option.ne_none_iff_isSome.mpr hroot
  by_cases hd : dimsChanged i
  · have hd' : i.cache.containerHeight ≠ i.cont.clientHeight ∨
        i.cache.containerWidth ≠ i.cont.clientWidth ∨
        i.cache.scrollHeight ≠ i.cont.scrollHeight ∨
        i.cache.scrollWidth ≠ i.cont.scrollWidth := hd
    constructor
    · simp only [ScrollContainer.intervalHandler]
      rw [if_neg hne, count_step_left, count_step_top]
      simp [hd', hd, List.count_append, List.count_cons]
    · simp only [ScrollContainer.intervalHandler]
      rw [if_neg hne, cache_step_left, cache_step_top]
      simp [hd', hd]
  · have hd' : ¬ (i.cache.containerHeight ≠ i.cont.clientHeight ∨
        i.cache.containerWidth ≠ i.cont.clientWidth ∨
        i.cache.scrollHeight ≠ i.cont.scrollHeight ∨
        i.cache.scrollWidth ≠ i.cont.scrollWidth) := hd
    constructor
    · simp only [ScrollContainer.intervalHandler]
      rw [if_neg hne, count_step_left, count_step_top]
      simp [hd', hd, List.count_append, List.count_cons]
    · simp only [ScrollContainer.intervalHandler]
      rw [if_neg hne, cache_step_left, cache_step_top]
      simp [hd', hd]

/-- Counterexample to claim C5 as stated: on a detached tick whose cached
dimensions are stale the handler destroys the instance and never calls
`parentUpdated`, although a dimension did change. -/
theorem claim5_counterexample :
    dimsChanged iDetached ∧
    (ScrollContainer.intervalHandler opts0 iDetached).cont.trace.count ViewCall.parentUpdated =
      iDetached.cont.trace.count ViewCall.parentUpdated := by
  constructor
  · unfold dimsChanged
    decide
  · decide

/-- Witness for claim C5: an attached tick with a stale cached height. -/
theorem claim5_witness :
    (findRootElement iAttached.cont.ancestors).isSome = true ∧
    (ScrollContainer.intervalHandler opts0 iAttached).cont.trace.count ViewCall.parentUpdated =
      iAttached.cont.trace.count ViewCall.parentUpdated + (if dimsChanged iAttached then 1 else 0) :=
  ⟨rfl, (claim5_parentUpdated_iff_dims_changed opts0 iAttached rfl).1⟩

/-- Claim C10: on a tick on which the `parentElement` walk never reaches
`document.body`, the handler destroys the instance (timer cleared,
container listeners removed, view destroyed) and performs no dimension
check, no cache refresh, no `parentUpdated` call and no scroll
re-synchronization. -/
theorem claim10_detached_tick_destroys (opts : Options) (i : Inst)
    (hdet : findRootElement i.cont.ancestors = none) :
    (ScrollContainer.intervalHandler opts i).timerActive = false ∧
    (ScrollContainer.intervalHandler opts i).viewAlive = false ∧
    ViewCall.viewDestroyed ∈ (ScrollContainer.intervalHandler opts i).cont.trace ∧
    (∀ k, k ∈ eventListenerKeys → k ∉ (ScrollContainer.intervalHandler opts i).listeners) ∧
    (ScrollContainer.intervalHandler opts i).cache = i.cache ∧
    (ScrollContainer.intervalHandler opts i).cont.trace.count ViewCall.parentUpdated =
      i.cont.trace.count ViewCall.parentUpdated ∧
    (ScrollContainer.intervalHandler opts i).cont.stScrollTop = i.cont.stScrollTop ∧
    (ScrollContainer.intervalHandler opts i).cont.containerScrollTop = i.cont.containerScrollTop ∧
    (ScrollContainer.intervalHandler opts i).cont.stScrollLeft = i.cont.stScrollLeft ∧
    (ScrollContainer.intervalHandler opts i).cont.containerScrollLeft = i.cont.containerScrollLeft := by
  simp only [ScrollContainer.intervalHandler]
  rw [if_pos hdet]
  simp only [ScrollContainer.destroy]
  refine ⟨by trivial, by trivial, ?_, ?_, by trivial, ?_, by trivial, by trivial,
    by trivial, by trivial⟩
  · simp
  · intro k hk
    simp only [eventListenerKeys, List.mem_cons, List.not_mem_nil, or_false] at hk
    rcases hk with hk | hk <;> subst hk <;>
      simp [List.mem_filter, eventListenerKeys]
  · simp [List.count_append, List.count_cons]

/-- Witness for claim C10 at a concrete detached instance. -/
theorem claim10_witness :
    findRootElement iDetached.cont.ancestors = none ∧
    (ScrollContainer.intervalHandler opts0 iDetached).timerActive = false ∧
    (ScrollContainer.intervalHandler opts0 iDetached).viewAlive = false :=
  ⟨rfl, (claim10_detached_tick_destroys opts0 iDetached rfl).1,
    (claim10_detached_tick_destroys opts0 iDetached rfl).2.1⟩

lemma not_mem_filter_eventListenerKeys (l : List String) (k : String)
    (hk : k ∈ eventListenerKeys) :
    k ∉ l.filter (fun x => !(eventListenerKeys.contains x)) := by
  simp only [eventListenerKeys, List.mem_cons, List.not_mem_nil, or_false] at hk
  rcases hk with hk | hk <;> subst hk <;> simp [List.mem_filter, eventListenerKeys]

/-- Claim C6: `ScrollContainer.destroy` clears the interval, removes every
listener the constructor registered and destroys the view; `PocScrollbar.destroy`
does the same, disconnecting the observer in MutationObserver mode and
clearing the interval otherwise, so that (given the constructor's mode
invariant, which both constructors establish) no timer, observer or
container listener of the instance remains active. -/
theorem claim6_destroy_teardown :
    (∀ i : Inst,
       (ScrollContainer.destroy i).timerActive = false ∧
       (∀ k, k ∈ eventListenerKeys → k ∉ (ScrollContainer.destroy i).listeners) ∧
       (ScrollContainer.destroy i).viewAlive = false ∧
       ViewCall.viewDestroyed ∈ (ScrollContainer.destroy i).cont.trace ∧
       (ScrollContainer.destroy i).observerActive = i.observerActive) ∧
    (∀ (opts : Options) (elem : ContState),
       (ScrollContainer.construct opts elem).observerActive = false) ∧
    (∀ i : Inst,
       (i.useMutationObserver = true → i.timerActive = false) →
       (i.useMutationObserver = false → i.observerActive = false) →
       (PocScrollbar.destroy i).timerActive = false ∧
       (PocScrollbar.destroy i).observerActive = false ∧
       (∀ k, k ∈ eventListenerKeys → k ∉ (PocScrollbar.destroy i).listeners) ∧
       (PocScrollbar.destroy i).viewAlive = false ∧
       ViewCall.viewDestroyed ∈ (PocScrollbar.destroy i).cont.trace) ∧
    (∀ (opts : Options) (mo : Bool) (elem : ContState),
       ((PocScrollbar.construct opts mo elem).useMutationObserver = true →
         (PocScrollbar.construct opts mo elem).timerActive = false) ∧
       ((PocScrollbar.construct opts mo elem).useMutationObserver = false →
         (PocScrollbar.construct opts mo elem).observerActive = false)) := by
  refine ⟨?_, ?_, ?_, ?_⟩
  · intro i
    refine ⟨rfl, ?_, rfl, by simp [ScrollContainer.destroy], rfl⟩
    intro k hk
    exact not_mem_filter_eventListenerKeys _ _ hk
  · intro opts elem
    simp only [ScrollContainer.construct]
  · intro i hmo1 hmo2
    by_cases hm : i.useMutationObserver = true
    · refine ⟨?_, ?_, ?_, ?_, ?_⟩
      · simp [PocScrollbar.destroy, hm, hmo1 hm]
      · simp [PocScrollbar.destroy, hm]
      · intro k hk
        simp only [PocScrollbar.destroy, hm, if_true]
        exact not_mem_filter_eventListenerKeys _ _ hk
      · simp [PocScrollbar.destroy]
      · simp [PocScrollbar.destroy]
    · have hm' : i.useMutationObserver = false := by simpa using hm
      refine ⟨?_, ?_, ?_, ?_, ?_⟩
      · simp [PocScrollbar.destroy, hm']
      · simp [PocScrollbar.destroy, hm', hmo2 hm']
      · intro k hk
        simp only [PocScrollbar.destroy, hm', Bool.false_eq_true, if_false]
        exact not_mem_filter_eventListenerKeys _ _ hk
      · simp [PocScrollbar.destroy]
      · simp [PocScrollbar.destroy]
  · intro opts mo elem
    constructor
    · intro h
      simp only [PocScrollbar.construct] at h ⊢
      split at h <;> simp_all
    · intro h
      simp only [PocScrollbar.construct] at h ⊢
      split at h <;> simp_all

/-- Witness for claim C6: tearing down a freshly constructed observer-mode
instance. -/
theorem claim6_witness :
    ((PocScrollbar.construct opts0 true elem0).useMutationObserver = true →
      (PocScrollbar.construct opts0 true elem0).timerActive = false) ∧
    (PocScrollbar.destroy (PocScrollbar.construct opts0 true elem0)).timerActive = false ∧
    (PocScrollbar.destroy (PocScrollbar.construct opts0 true elem0)).observerActive = false :=
  ⟨by decide,
   (claim6_destroy_teardown.2.2.1 (PocScrollbar.construct opts0 true elem0)
     (by decide) (by decide)).1,
   (claim6_destroy_teardown.2.2.1 (PocScrollbar.construct opts0 true elem0)
     (by decide) (by decide)).2.1⟩

lemma sorted_head_le (t : Nat) (rest : List Nat)
    (hs : List.Pairwise (· ≤ ·) (t :: rest)) (u : Nat) (hu : u ∈ t :: rest) :
    t ≤ u := by
  rcases List.mem_cons.mp hu with rfl | hu
  · exact le_rfl
  · exact (List.pairwise_cons.mp hs).1 u hu

lemma debounceFires_ge (w : Nat) (t : Nat) (ts : List Nat)
    (hs : List.Pairwise (· ≤ ·) (t :: ts)) :
    ∀ f ∈ debounceFires w (t :: ts), t + w ≤ f := by
  induction ts generalizing t with
  | nil =>
    intro f hf
    simp only [debounceFires, List.mem_singleton] at hf
    omega
  | cons t2 rest ih =>
    intro f hf
    have ht12 : t ≤ t2 := (List.pairwise_cons.mp hs).1 t2 (by simp)
    have hs2 : List.Pairwise (· ≤ ·) (t2 :: rest) := (List.pairwise_cons.mp hs).2
    simp only [debounceFires] at hf
    by_cases hlt : t2 < t + w
    · rw [if_pos hlt] at hf
      have := ih t2 hs2 f hf
      omega
    · rw [if_neg hlt] at hf
      rcases List.mem_cons.mp hf with rfl | hf
      · omega
      · have := ih t2 hs2 f hf
        omega

lemma debounceFires_gap (w : Nat) (ts : List Nat)
    (hs : List.Pairwise (· ≤ ·) ts) :
    List.Pairwise (fun a b => a + w ≤ b) (debounceFires w ts) := by
  induction ts with
  | nil => simp [debounceFires]
  | cons t rest ih =>
    cases rest with
    | nil => simp [debounceFires]
    | cons t2 rest2 =>
      have hs2 : List.Pairwise (· ≤ ·) (t2 :: rest2) := (List.pairwise_cons.mp hs).2
      have ht12 : t ≤ t2 := (List.pairwise_cons.mp hs).1 t2 (by simp)
      simp only [debounceFires]
      split
      · exact ih hs2
      next hge =>
        refine List.pairwise_cons.mpr ⟨?_, ih hs2⟩
        intro f hf
        have := debounceFires_ge w t2 rest2 hs2 f hf
        omega

lemma debounceFires_quiet (w : Nat) (ts : List Nat)
    (hs : List.Pairwise (· ≤ ·) ts) :
    ∀ f ∈ debounceFires w ts, ∃ t ∈ ts, f = t + w ∧ ∀ u ∈ ts, u ≤ t ∨ t + w ≤ u := by
  induction ts with
  | nil => simp [debounceFires]
  | cons t rest ih =>
    cases rest with
    | nil =>
      intro f hf
      simp only [debounceFires, List.mem_singleton] at hf
      subst hf
      refine ⟨t, by simp, rfl, ?_⟩
      intro u hu
      simp only [List.mem_singleton] at hu
      subst hu
      exact Or.inl le_rfl
    | cons t2 rest2 =>
      intro f hf
      have hpc := List.pairwise_cons.mp hs
      have hs2 : List.Pairwise (· ≤ ·) (t2 :: rest2) := hpc.2
      have ht12 : t ≤ t2 := hpc.1 t2 (by simp)
      simp only [debounceFires] at hf
      by_cases hlt : t2 < t + w
      · rw [if_pos hlt] at hf
        obtain ⟨u0, hu0mem, hfeq, hquiet⟩ := ih hs2 f hf
        refine ⟨u0, by simp [hu0mem], hfeq, ?_⟩
        intro u hu
        rcases List.mem_cons.mp hu with rfl | hu
        · have := sorted_head_le t2 rest2 hs2 u0 hu0mem
          exact Or.inl (by omega)
        · exact hquiet u hu
      · rw [if_neg hlt] at hf
        rcases List.mem_cons.mp hf with rfl | hf
        · refine ⟨t, by simp, rfl, ?_⟩
          intro u hu
          rcases List.mem_cons.mp hu with rfl | hu
          · exact Or.inl le_rfl
          · have := sorted_head_le t2 rest2 hs2 u hu
            exact Or.inr (by omega)
        · obtain ⟨u0, hu0mem, hfeq, hquiet⟩ := ih hs2 f hf
          refine ⟨u0, by simp [hu0mem], hfeq, ?_⟩
          intro u hu
          rcases List.mem_cons.mp hu with rfl | hu
          · have := sorted_head_le t2 rest2 hs2 u0 hu0mem
            exact Or.inl (by omega)
          · exact hquiet u hu

/-- Claim C7: for any ordered timeline of wrapper invocations, the debounced
callback fires only `waitTime` after an invocation that is followed by no
further invocation within the interval, and any two firings are at least
`waitTime` apart, so the callback runs at most once per interval. -/
theorem claim7_debounce_at_most_once (w : Nat) (ts : List Nat)
    (hs : List.Pairwise (· ≤ ·) ts) :
    List.Pairwise (fun a b => a + w ≤ b) (debounceFires w ts) ∧
    (∀ f ∈ debounceFires w ts, ∃ t ∈ ts, f = t + w ∧ ∀ u ∈ ts, u ≤ t ∨ t + w ≤ u) :=
  ⟨debounceFires_gap w ts hs, debounceFires_quiet w ts hs⟩

/-- Witness for claim C7 on a concrete burst of invocations. -/
theorem claim7_witness :
    List.Pairwise (· ≤ ·) [0, 2, 3, 10] ∧
    List.Pairwise (fun a b => a + 5 ≤ b) (debounceFires 5 [0, 2, 3, 10]) :=
  ⟨by decide, (claim7_debounce_at_most_once 5 [0, 2, 3, 10] (by decide)).1⟩

lemma applyOptions_result (el : BarElement) (name : String) (o : String → OptVal) :
    applyOptionsToScollBarElement el name (some o) =
      { style :=
          if truthy (o (name ++ "Styles")) && typeofIsObject (o (name ++ "Styles")) &&
              !(isArray (o (name ++ "Styles"))) then
            (objEntries (o (name ++ "Styles"))).foldl
              (fun st kv => styleSet st kv.1 kv.2) el.style
          else el.style,
        classList :=
          if truthy (o (name ++ "Class")) && typeofIsString (o (name ++ "Class")) then
            classListAdd el.classList (strVal (o (name ++ "Class")))
          else if isArray (o (name ++ "Class")) then
            (arrEntries (o (name ++ "Class"))).foldl classListAdd el.classList
          else el.classList } := by
  simp only [applyOptionsToScollBarElement, Option.isSome_some, Bool.true_and]
  repeat' split
  all_goals rfl

lemma find?_filter_ne_none (st : List (String × String)) (k : String) :
    (st.filter (fun kv => kv.1 != k)).find? (fun kv => kv.1 == k) = none := by
  rw [List.find?_eq_none]
  intro x hx
  have hx2 := (List.mem_filter.mp hx).2
  simp only [bne_iff_ne, ne_eq] at hx2
  simp [hx2]

lemma styleGet_styleSet_self (st : List (String × String)) (k v : String) :
    styleGet (styleSet st k v) k = some v := by
  simp [styleGet, styleSet, List.find?_append, find?_filter_ne_none]

lemma styleGet_styleSet_other (st : List (String × String)) (k v q : String)
    (h : q ≠ k) :
    styleGet (styleSet st k v) q = styleGet st q := by
  induction st with
  | nil => simp [styleGet, styleSet, Ne.symm h]
  | cons kv rest ih =>
    by_cases hk : kv.1 = k
    · simp only [styleGet, styleSet, List.filter_cons] at ih ⊢
      simpa [hk, Ne.symm h] using ih
    · by_cases hq : kv.1 = q
      · simp [styleGet, styleSet, List.filter_cons, hk, hq, h]
      · simp only [styleGet, styleSet, List.filter_cons] at ih ⊢
        simpa [hk, hq] using ih

lemma styleGet_foldl_notmem (entries : List (String × String))
    (st : List (String × String)) (k : String)
    (h : k ∉ entries.map Prod.fst) :
    styleGet (entries.foldl (fun acc kv => styleSet acc kv.1 kv.2) st) k =
      styleGet st k := by
  induction entries generalizing st with
  | nil => rfl
  | cons kv rest ih =>
    simp only [List.map_cons, List.mem_cons] at h
    push_neg at h
    simp only [List.foldl_cons]
    rw [ih _ h.2, styleGet_styleSet_other _ _ _ _ h.1]

lemma styleGet_foldl_mem (entries : List (String × String))
    (st : List (String × String)) (k v : String)
    (hnd : (entries.map Prod.fst).Nodup) (h : (k, v) ∈ entries) :
    styleGet (entries.foldl (fun acc kv => styleSet acc kv.1 kv.2) st) k = some v := by
  induction entries generalizing st with
  | nil => simp at h
  | cons kv rest ih =>
    simp only [List.map_cons, List.nodup_cons] at hnd
    rcases List.mem_cons.mp h with heq | hmem
    · have hk : kv.1 = k := by rw [← heq]
      have hv : kv.2 = v := by rw [← heq]
      have hnotmem : k ∉ rest.map Prod.fst := by rw [← hk]; exact hnd.1
      simp only [List.foldl_cons]
      rw [styleGet_foldl_notmem _ _ _ hnotmem, hk, hv, styleGet_styleSet_self]
    · simp only [List.foldl_cons]
      exact ih _ hnd.2 hmem

lemma mem_classListAdd (l : List String) (c x : String) :
    x ∈ classListAdd l c ↔ x ∈ l ∨ x = c := by
  by_cases h : c ∈ l
  · simp only [classListAdd, if_pos h]
    constructor
    · exact Or.inl
    · rintro (hx | rfl)
      · exact hx
      · exact h
  · simp [classListAdd, h]

lemma mem_foldl_classListAdd (xs : List String) (l : List String) (x : String) :
    x ∈ xs.foldl classListAdd l ↔ x ∈ l ∨ x ∈ xs := by
  induction xs generalizing l with
  | nil => simp
  | cons c rest ih =>
    simp only [List.foldl_cons, ih, mem_classListAdd, List.mem_cons]
    tauto

/-- Claim C8 (amended): the helper copies `options[name + "Styles"]` onto the
element style exactly when that option is a truthy (hence non-null)
non-array object, adds `options[name + "Class"]` to the class list exactly
when it is a non-empty string, adds each entry when it is an array, and
leaves the element unchanged for every other shape. -/
theorem claim8_apply_options_amended (el : BarElement) (name : String)
    (o : String → OptVal) :
    ((truthy (o (name ++ "Styles")) = true ∧ typeofIsObject (o (name ++ "Styles")) = true ∧
        isArray (o (name ++ "Styles")) = false) →
      ((objEntries (o (name ++ "Styles"))).map Prod.fst).Nodup →
      (∀ k v, (k, v) ∈ objEntries (o (name ++ "Styles")) →
        styleGet (applyOptionsToScollBarElement el name (some o)).style k = some v) ∧
      (∀ k, k ∉ (objEntries (o (name ++ "Styles"))).map Prod.fst →
        styleGet (applyOptionsToScollBarElement el name (some o)).style k =
          styleGet el.style k)) ∧
    (¬ (truthy (o (name ++ "Styles")) = true ∧ typeofIsObject (o (name ++ "Styles")) = true ∧
        isArray (o (name ++ "Styles")) = false) →
      (applyOptionsToScollBarElement el name (some o)).style = el.style) ∧
    (∀ s, o (name ++ "Class") = OptVal.oStr s → s ≠ "" →
      ∀ x, x ∈ (applyOptionsToScollBarElement el name (some o)).classList ↔
        x ∈ el.classList ∨ x = s) ∧
    (∀ xs, o (name ++ "Class") = OptVal.oArr xs →
      ∀ x, x ∈ (applyOptionsToScollBarElement el name (some o)).classList ↔
        x ∈ el.classList ∨ x ∈ xs) ∧
    ((typeofIsString (o (name ++ "Class")) = false ∨ o (name ++ "Class") = OptVal.oStr "") →
      isArray (o (name ++ "Class")) = false →
      (applyOptionsToScollBarElement el name (some o)).classList = el.classList) := by
  rw [applyOptions_result]
  refine ⟨?_, ?_, ?_, ?_, ?_⟩
  · rintro ⟨h1, h2, h3⟩ hnd
    have hguard : (truthy (o (name ++ "Styles")) && typeofIsObject (o (name ++ "Styles")) &&
        !(isArray (o (name ++ "Styles")))) = true := by simp [h1, h2, h3]
    constructor
    · intro k v hkv
      simp only [hguard, if_true]
      exact styleGet_foldl_mem _ _ _ _ hnd hkv
    · intro k hk
      simp only [hguard, if_true]
      exact styleGet_foldl_notmem _ _ _ hk
  · intro hng
    have hguard : (truthy (o (name ++ "Styles")) && typeofIsObject (o (name ++ "Styles")) &&
        !(isArray (o (name ++ "Styles")))) = false := by
      rcases Bool.eq_false_or_eq_true (truthy (o (name ++ "Styles"))) with h1 | h1 <;>
        rcases Bool.eq_false_or_eq_true (typeofIsObject (o (name ++ "Styles"))) with h2 | h2 <;>
        rcases Bool.eq_false_or_eq_true (isArray (o (name ++ "Styles"))) with h3 | h3 <;>
        simp [h1, h2, h3] <;> exact absurd ⟨h1, h2, h3⟩ hng
    simp [hguard]
  · intro s hs hsne x
    have hstr : truthy (o (name ++ "Class")) = true := by simp [hs, truthy, hsne]
    have htys : typeofIsString (o (name ++ "Class")) = true := by simp [hs, typeofIsString]
    simp [hs, truthy, typeofIsString, strVal, hsne, mem_classListAdd]
  · intro xs hxs x
    have hstr : typeofIsString (o (name ++ "Class")) = false := by simp [hxs, typeofIsString]
    have harr : isArray (o (name ++ "Class")) = true := by simp [hxs, isArray]
    simp [hxs, truthy, typeofIsString, isArray, arrEntries, mem_foldl_classListAdd]
  · intro hns harr
    rcases hns with hns | hns
    · simp [hns, harr]
    · simp [hns, truthy, isArray, arrEntries]

/-- Counterexample to claim C8 as stated: an empty-string class option is a
string, yet the element is left unchanged because the code's truthiness
guard rejects it. -/
theorem claim8_counterexample :
    typeofIsString (emptyClassOpts ("xElement" ++ "Class")) = true ∧
    applyOptionsToScollBarElement barElem0 "xElement" (some emptyClassOpts) = barElem0 := by
  constructor
  · rfl
  · rfl

/-- Witness for claim C8 on a concrete style object and class array. -/
theorem claim8_witness :
    ((truthy (styleClassOpts ("xElement" ++ "Styles")) = true ∧
      typeofIsObject (styleClassOpts ("xElement" ++ "Styles")) = true ∧
      isArray (styleClassOpts ("xElement" ++ "Styles")) = false) ∧
     ((objEntries (styleClassOpts ("xElement" ++ "Styles"))).map Prod.fst).Nodup) ∧
    styleGet (applyOptionsToScollBarElement barElem0 "xElement"
      (some styleClassOpts)).style "color" = some "red" ∧
    ("a" ∈ (applyOptionsToScollBarElement barElem0 "xElement"
      (some styleClassOpts)).classList ↔
      "a" ∈ barElem0.classList ∨ "a" ∈ ["a", "b"]) :=
  ⟨⟨⟨by decide, by decide, by decide⟩, by decide⟩,
   ((claim8_apply_options_amended barElem0 "xElement" styleClassOpts).1
     ⟨by decide, by decide, by decide⟩ (by decide)).1 "color" "red" (by decide),
   (claim8_apply_options_amended barElem0 "xElement" styleClassOpts).2.2.2.1
     ["a", "b"] (by decide) "a"⟩

/-- Claim C9: the `scrollTop` / `scrollLeft` methods of `ScrollContainer`
(src/src/scrollcontainer.js) and `PocScrollbar` (src/unnamed/part_001) are
extensionally equal: same return value and same state updates on every
state, option set and argument. -/
theorem claim9_versions_extensionally_equal :
    ∀ (opts : Options) (s : ContState) (arg : Option JSVal),
      ScrollContainer.scrollTop opts s arg = PocScrollbar.scrollTop opts s arg ∧
      ScrollContainer.scrollLeft opts s arg = PocScrollbar.scrollLeft opts s arg :=
  fun _ _ _ => ⟨rfl, rfl⟩

end PocScrollbarSpec
